import Mathlib

/-!
Verification of the persona memory & market-dynamics engine of the
nwhacks26-agent repository.

The definitions below are shallow embeddings of the JavaScript source:
  * `trustDelta`, `appliedTrustDelta`, `updateTrustWithEmotion` embed
    `updateTrustWithEmotion` of `src/services/enhancedMemory.js`
    (emotions and decisions are kept as strings, as in the source;
    an unknown emotion falls back to delta 0, mirroring
    `trustDeltas[emotion] || 0`; `Math.floor` is `Int.fdiv`);
  * `recordVisit` embeds `recordVisit` of the same file (prices and
    quality are rationals, mirroring exact JS number arithmetic on the
    values of interest);
  * `calculatePricePerception` embeds `calculatePricePerception`
    (including the JS truthiness of `lastPricePaid ? ... : 0`, under
    which a recorded price of 0 behaves like an absent one);
  * `calculateMarketMomentum`, `applySocialPressure`,
    `processBatchedSimulation` embed the corresponding functions of
    `src/services/batchProcessor.js` (the external oracle is a function
    parameter; a batch partition stands for the shuffled fixed-size
    chunking of the persona list);
  * `getMarketMoodLabel` embeds `getMarketMoodLabel` of
    `src/services/advancedSimulate.js`;
  * `simulatePersona` embeds the decision validation and error recovery
    of `simulatePersona` in `src/services/oProvider.js`.
-/

namespace NwhacksAgent

/-! ## Trust updates (`updateTrustWithEmotion`) -/

/-- The emotion→delta table `trustDeltas`, with `trustDeltas[emotion] || 0`
for emotions outside the table. -/
def trustDelta (emotion : String) : Int :=
  if emotion = "satisfied" then 5
  else if emotion = "delighted" then 10
  else if emotion = "loyal" then 15
  else if emotion = "neutral" then 0
  else if emotion = "frustrated" then -15
  else if emotion = "angry" then -25
  else if emotion = "betrayed" then -40
  else 0

/-- Asymmetric recovery: a positive delta is replaced by
`Math.floor(delta / 3)`; a non-positive delta is unchanged. -/
def appliedTrustDelta (emotion : String) : Int :=
  let delta := trustDelta emotion
  if delta > 0 then Int.fdiv delta 3 else delta

/-- The new trust score:
`Math.max(0, Math.min(100, trust_score + delta))`. -/
def updateTrustWithEmotion (trust : Int) (emotion : String) : Int :=
  max 0 (min 100 (trust + appliedTrustDelta emotion))

/-! ## Market momentum and the market-mood label -/

/-- Momentum record built by `calculateMarketMomentum`.  The empty-input
branch of the source returns an object without a `mood` field, embedded
here as `mood := none`. -/
structure Momentum where
  leaving : ℚ
  staying : ℚ
  switching : ℚ
  mood : Option String
deriving Repr, DecidableEq

/-- `calculateMarketMomentum` over the decisions of the results seen so
far.  Counts are taken exactly as in the source
(`results.filter(r => r.decision === 'Buy').length` etc.). -/
def calculateMarketMomentum (results : List String) : Momentum :=
  let total := results.length
  if total = 0 then
    { leaving := 0, staying := 0, switching := 0, mood := none }
  else
    let buyCount := (results.filter (fun r => r = "Buy")).length
    let skipCount := (results.filter (fun r => r = "Skip")).length
    let switchCount := (results.filter (fun r => r = "Switch")).length
    { leaving := ((skipCount : ℚ) + switchCount) / total
      staying := (buyCount : ℚ) / total
      switching := (switchCount : ℚ) / total
      mood := some (if ((skipCount : ℚ) + switchCount) > (total : ℚ) * (1/2)
                    then "mass_exit"
                    else if (buyCount : ℚ) > (total : ℚ) * (3/5)
                    then "mass_adoption"
                    else "neutral") }

/-- `getMarketMoodLabel` of `advancedSimulate.js`: a fixed first-match
rule chain over the momentum fractions. -/
def getMarketMoodLabel (momentum : Momentum) : String :=
  if momentum.leaving ≥ 7/10 then "Brand Crisis"
  else if momentum.leaving ≥ 1/2 then "Mass Exodus"
  else if momentum.leaving ≥ 3/10 then "Resentful"
  else if momentum.staying ≥ 4/5 then "Viral Hype"
  else if momentum.staying ≥ 3/5 then "FOMO Wave"
  else if momentum.staying ≥ 11/20 then "Optimistic"
  else if momentum.leaving ≥ 11/20 then "Skeptical"
  else "Balanced"

/-- Ten decisions: 4 Skip + 3 Switch + 3 Buy (7 leaving, 3 staying). -/
def exodusDecisions : List String :=
  ["Skip", "Skip", "Skip", "Skip", "Switch", "Switch", "Switch",
   "Buy", "Buy", "Buy"]

/-! ## Persona memory state (`enhancedMemory.js`) -/

/-- One entry of `visitHistory`.  The JS timestamp is omitted: no claim
mentions it and it does not feed any transition. -/
structure Visit where
  turn : Nat
  decision : String
  price : ℚ
  quality : ℚ
  emotion : String
  reasoning : String
deriving Repr, DecidableEq

structure PriceAnchoring where
  initialPrice : Option ℚ
  lastPricePaid : Option ℚ
  lowestPriceSeen : Option ℚ
  highestPriceSeen : Option ℚ
deriving Repr, DecidableEq

structure PeakExperience where
  turn : Nat
  quality : ℚ
  price : ℚ
  emotion : String
deriving Repr, DecidableEq

structure ExperienceTracking where
  consecutiveFrustrations : Nat
  consecutiveBuys : Nat
  peakExperience : Option PeakExperience
  hasRoutine : Bool
  routineBrokenCount : Nat
deriving Repr, DecidableEq

structure CompetitorKnowledge where
  discoveredCompetitor : Bool
  competitorPrice : Option ℚ
  lastSwitchTurn : Option Nat
deriving Repr, DecidableEq

structure LifetimeStats where
  totalVisits : Nat
  totalBuys : Nat
  totalSkips : Nat
  totalSwitches : Nat
  totalSpent : ℚ
  timesDisappointed : Nat
  timesDelighted : Nat
deriving Repr, DecidableEq

structure Flags where
  isPermanentlyGone : Bool
  isOnLastChance : Bool
  lastChanceGivenTurn : Option Nat
deriving Repr, DecidableEq

structure MemoryState where
  trust_score : Int
  visitHistory : List Visit
  priceAnchoring : PriceAnchoring
  experienceTracking : ExperienceTracking
  competitorKnowledge : CompetitorKnowledge
  lifetimeStats : LifetimeStats
  flags : Flags
deriving Repr, DecidableEq

def MAX_VISIT_HISTORY : Nat := 10

/-- `DEFAULT_ENHANCED_STATE` (the default trust 100 variant; the random
40–100 seeding at first creation only changes the starting trust). -/
def DEFAULT_ENHANCED_STATE : MemoryState :=
  { trust_score := 100
    visitHistory := []
    priceAnchoring := { initialPrice := none, lastPricePaid := none,
                        lowestPriceSeen := none, highestPriceSeen := none }
    experienceTracking := { consecutiveFrustrations := 0, consecutiveBuys := 0,
                            peakExperience := none, hasRoutine := false,
                            routineBrokenCount := 0 }
    competitorKnowledge := { discoveredCompetitor := false,
                             competitorPrice := none, lastSwitchTurn := none }
    lifetimeStats := { totalVisits := 0, totalBuys := 0, totalSkips := 0,
                       totalSwitches := 0, totalSpent := 0,
                       timesDisappointed := 0, timesDelighted := 0 }
    flags := { isPermanentlyGone := false, isOnLastChance := false,
               lastChanceGivenTurn := none } }

/-- `['frustrated', 'angry', 'betrayed'].includes(emotion)`. -/
def isNegativeEmotion (e : String) : Bool :=
  e = "frustrated" || e = "angry" || e = "betrayed"

/-- `['satisfied', 'delighted', 'loyal'].includes(emotion)`. -/
def isPositiveEmotion (e : String) : Bool :=
  e = "satisfied" || e = "delighted" || e = "loyal"

/-- The `visitHistory.push` followed by `slice(-MAX_VISIT_HISTORY)` when
the bound is exceeded. -/
def pushVisit (history : List Visit) (visit : Visit) : List Visit :=
  let h := history ++ [visit]
  if h.length > MAX_VISIT_HISTORY then h.drop (h.length - MAX_VISIT_HISTORY)
  else h

/-- Lifetime counters section of `recordVisit` (the `totalVisits++`
followed by the decision `if`/`else if` chain). -/
def updateLifetimeStats (ls : LifetimeStats) (visit : Visit) : LifetimeStats :=
  let ls := { ls with totalVisits := ls.totalVisits + 1 }
  if visit.decision = "Buy" then
    { ls with totalBuys := ls.totalBuys + 1,
              totalSpent := ls.totalSpent + visit.price }
  else if visit.decision = "Skip" then
    { ls with totalSkips := ls.totalSkips + 1 }
  else if visit.decision = "Switch" then
    { ls with totalSwitches := ls.totalSwitches + 1 }
  else ls

/-- The competitor-knowledge writes performed inside the `Switch`
branch of `recordVisit`. -/
def updateCompetitorKnowledge (ck : CompetitorKnowledge) (visit : Visit) :
    CompetitorKnowledge :=
  if visit.decision = "Switch" then
    { ck with discoveredCompetitor := true, lastSwitchTurn := some visit.turn }
  else ck

/-- Price anchoring section of `recordVisit`.  The source performs four
independent `if` statements, each reading only pre-update fields and
writing a distinct field; they are rendered here as one field-parallel
record. -/
def updatePriceAnchoring (pa : PriceAnchoring) (visit : Visit) :
    PriceAnchoring :=
  { initialPrice :=
      if pa.initialPrice = none then some visit.price else pa.initialPrice
    lastPricePaid :=
      if visit.decision = "Buy" then some visit.price else pa.lastPricePaid
    lowestPriceSeen :=
      match pa.lowestPriceSeen with
      | none => some visit.price
      | some low => if visit.price < low then some visit.price else some low
    highestPriceSeen :=
      match pa.highestPriceSeen with
      | none => some visit.price
      | some high => if visit.price > high then some visit.price else some high }

/-- Experience-tracking state machine of `recordVisit` (negative /
positive / neutral emotion branches), returning the updated
experience tracking, flags, and lifetime stats. -/
def runExperienceMachine (et : ExperienceTracking) (fl : Flags)
    (ls : LifetimeStats) (visit : Visit) :
    ExperienceTracking × Flags × LifetimeStats :=
  if isNegativeEmotion visit.emotion then
    let et1 := { et with consecutiveFrustrations := et.consecutiveFrustrations + 1,
                         consecutiveBuys := 0 }
    let ls1 := { ls with timesDisappointed := ls.timesDisappointed + 1 }
    let fl1 := if et1.consecutiveFrustrations ≥ 3 then
                 { fl with isPermanentlyGone := true }
               else fl
    let fl2 := if et1.consecutiveFrustrations = 2 ∧ fl1.isOnLastChance = false then
                 { fl1 with isOnLastChance := true,
                            lastChanceGivenTurn := some visit.turn }
               else fl1
    (et1, fl2, ls1)
  else if isPositiveEmotion visit.emotion then
    let et1 := { et with consecutiveFrustrations := 0 }
    let ls1 := { ls with timesDelighted := ls.timesDelighted + 1 }
    let fl1 := if fl.isOnLastChance then { fl with isOnLastChance := false }
               else fl
    let et2 :=
      if visit.decision = "Buy" then
        let etb := { et1 with consecutiveBuys := et1.consecutiveBuys + 1 }
        if etb.consecutiveBuys ≥ 5 then { etb with hasRoutine := true } else etb
      else et1
    (et2, fl1, ls1)
  else
    ({ et with consecutiveFrustrations := 0 }, fl, ls)

/-- Peak-experience tracking at the end of `recordVisit`: replace only
when positive, quality ≥ 8, and no prior peak or strictly higher
quality. -/
def updatePeakExperience (et : ExperienceTracking) (visit : Visit) :
    ExperienceTracking :=
  let newPeak : PeakExperience :=
    { turn := visit.turn, quality := visit.quality,
      price := visit.price, emotion := visit.emotion }
  if isPositiveEmotion visit.emotion ∧ visit.quality ≥ 8 then
    match et.peakExperience with
    | none => { et with peakExperience := some newPeak }
    | some peak =>
        if visit.quality > peak.quality then
          { et with peakExperience := some newPeak }
        else et
  else et

/-- `recordVisit` of `enhancedMemory.js`, composed from the sections
above in source order. -/
def recordVisit (state : MemoryState) (visit : Visit) : MemoryState :=
  let triple := runExperienceMachine state.experienceTracking state.flags
      (updateLifetimeStats state.lifetimeStats visit) visit
  { state with
    visitHistory := pushVisit state.visitHistory visit
    priceAnchoring := updatePriceAnchoring state.priceAnchoring visit
    experienceTracking := updatePeakExperience triple.1 visit
    competitorKnowledge := updateCompetitorKnowledge state.competitorKnowledge visit
    lifetimeStats := triple.2.2
    flags := triple.2.1 }

/-- The running minimum over a price stream, continuing from an
optional already-recorded minimum. -/
def runningMin (acc : Option ℚ) : List ℚ → Option ℚ
  | [] => acc
  | p :: ps =>
      match acc with
      | none => runningMin (some p) ps
      | some m => runningMin (some (min m p)) ps

/-- The running maximum over a price stream, continuing from an
optional already-recorded maximum. -/
def runningMax (acc : Option ℚ) : List ℚ → Option ℚ
  | [] => acc
  | p :: ps =>
      match acc with
      | none => runningMax (some p) ps
      | some m => runningMax (some (max m p)) ps

/-! ## Price perception (`calculatePricePerception`) -/

/-- Return shape of `calculatePricePerception`.  The no-anchor branch of
the source returns an object without the `vsInitial`/`vsLast`/`vsLowest`
fields, embedded as `none`. -/
structure PricePerceptionResult where
  perception : String
  magnitude : ℚ
  vsInitial : Option ℚ
  vsLast : Option ℚ
  vsLowest : Option ℚ
  anchor : String
deriving Repr, DecidableEq

/-- `calculatePricePerception` of `enhancedMemory.js`, reading the
persona's price anchors.  The JS `lastPricePaid ? currentPrice -
lastPricePaid : 0` is truthiness on a number, so a recorded price of 0
also yields 0; likewise for `lowestPriceSeen`. -/
def calculatePricePerception (pa : PriceAnchoring) (currentPrice : ℚ) :
    PricePerceptionResult :=
  match pa.initialPrice with
  | none =>
      { perception := "unknown", magnitude := 0,
        vsInitial := none, vsLast := none, vsLowest := none, anchor := "none" }
  | some initialPrice =>
      let vsInitial := currentPrice - initialPrice
      let vsLast :=
        match pa.lastPricePaid with
        | none => (0 : ℚ)
        | some lastPricePaid =>
            if lastPricePaid = 0 then 0 else currentPrice - lastPricePaid
      let vsLowest :=
        match pa.lowestPriceSeen with
        | none => (0 : ℚ)
        | some lowestPriceSeen =>
            if lowestPriceSeen = 0 then 0 else currentPrice - lowestPriceSeen
      let lossAversionFactor : ℚ := if vsInitial > 0 then 2 else 1
      let perceivedDelta := vsInitial * lossAversionFactor
      let perception :=
        if |perceivedDelta| < initialPrice * (5/100) then "fair"
        else if perceivedDelta > initialPrice * (20/100) then "outrageous"
        else if perceivedDelta > 0 then "expensive"
        else if perceivedDelta < (-initialPrice) * (10/100) then "cheap"
        else "fair"
      { perception := perception, magnitude := |perceivedDelta|,
        vsInitial := some vsInitial, vsLast := some vsLast,
        vsLowest := some vsLowest, anchor := "initial" }

/-- A price-anchor state whose initial price is $10 and nothing else is
recorded, for the concrete classification examples. -/
def anchorAtTen : PriceAnchoring :=
  { initialPrice := some 10, lastPricePaid := none,
    lowestPriceSeen := none, highestPriceSeen := none }

/-- A memory state whose price anchors were all set by a first visit at
$5, for concrete anchor-immutability checks. -/
def anchoredAtFive : MemoryState :=
  { DEFAULT_ENHANCED_STATE with
    priceAnchoring := { initialPrice := some 5, lastPricePaid := none,
                        lowestPriceSeen := some 5, highestPriceSeen := some 5 } }

/-! ## Batch processing (`batchProcessor.js`, `oProvider.js`) -/

/-- The persona traits used by the social-pressure computation. -/
structure Persona where
  id : Nat
  socialInfluenceWeight : ℚ
deriving Repr, DecidableEq

/-- `applySocialPressure` of `batchProcessor.js`. -/
def applySocialPressure (persona : Persona) (baseSensitivity : ℚ)
    (momentum : Momentum) : ℚ :=
  if momentum.leaving > 3/10 then
    min 1 (baseSensitivity +
      (momentum.leaving - 3/10) * persona.socialInfluenceWeight * (1/2))
  else if momentum.staying > 3/5 then
    max 0 (baseSensitivity -
      (momentum.staying - 3/5) * persona.socialInfluenceWeight * (3/10))
  else baseSensitivity

/-- The raw decision object returned by a successful oracle call. -/
structure OracleDecision where
  decision : String
  reasoning : String
  emotion : String
  pricePerception : String
deriving Repr, DecidableEq

/-- A per-persona result of a simulation turn. -/
structure SimResult where
  personaId : Nat
  decision : String
  reasoning : String
  emotion : String
  error : Bool
deriving Repr, DecidableEq

/-- The decision validation and error recovery of `simulatePersona` in
`oProvider.js`: a thrown oracle error is replaced by a Skip result
flagged `error := true`; a successful call with a missing decision or
one outside {Buy, Skip, Switch} is coerced to Skip with no error
flag. -/
def simulatePersona (persona : Persona)
    (outcome : Except String OracleDecision) : SimResult :=
  match outcome with
  | Except.error msg =>
      { personaId := persona.id, decision := "Skip",
        reasoning := "Error: " ++ msg, emotion := "neutral", error := true }
  | Except.ok d =>
      let finalDecision :=
        if d.decision = "" ∨
            ¬ (d.decision = "Buy" ∨ d.decision = "Skip" ∨ d.decision = "Switch")
        then "Skip" else d.decision
      { personaId := persona.id, decision := finalDecision,
        reasoning := d.reasoning, emotion := d.emotion, error := false }

/-- `currentMomentum ? applySocialPressure(persona, base, momentum) :
base` — batch 1 runs with `currentMomentum = null`. -/
def adjustedSensitivity (persona : Persona) (baseSensitivity : ℚ)
    (momentum : Option Momentum) : ℚ :=
  match momentum with
  | none => baseSensitivity
  | some m => applySocialPressure persona baseSensitivity m

/-- The batch loop of `processBatchedSimulation`: each batch is mapped
through the oracle with the sensitivity adjusted by the momentum
accumulated so far; afterwards the momentum is recomputed over all
results so far (cumulative).  The oracle is a function parameter taking
the persona and its adjusted sensitivity. -/
def processBatchesAux (oracle : Persona → ℚ → SimResult)
    (baseSens : Persona → ℚ) :
    List (List Persona) → List SimResult → Option Momentum → List SimResult
  | [], allResults, _ => allResults
  | batch :: rest, allResults, currentMomentum =>
      let batchResults := batch.map (fun persona =>
        oracle persona
          (adjustedSensitivity persona (baseSens persona) currentMomentum))
      let newResults := allResults ++ batchResults
      processBatchesAux oracle baseSens rest newResults
        (some (calculateMarketMomentum (newResults.map SimResult.decision)))

/-- `processBatchedSimulation` restricted to its per-batch result
computation: batches stand for the shuffled `BATCH_SIZE` chunking of
the persona list; the loop starts with no momentum and an empty result
accumulator. -/
def processBatchedSimulation (oracle : Persona → ℚ → SimResult)
    (baseSens : Persona → ℚ) (batches : List (List Persona)) :
    List SimResult :=
  processBatchesAux oracle baseSens batches [] none

/-- The momentum variable of the batch loop after processing the given
batches from the given accumulator state: `none` before the first
batch, afterwards the cumulative momentum over all results so far. -/
def momentumAfter (oracle : Persona → ℚ → SimResult) (baseSens : Persona → ℚ) :
    List (List Persona) → List SimResult → Option Momentum → Option Momentum
  | [], _, mom => mom
  | bs@(_ :: _), acc, mom =>
      some (calculateMarketMomentum
        ((processBatchesAux oracle baseSens bs acc mom).map SimResult.decision))

/-- One iteration of the memory-write loop at the end of
`processBatchedSimulation`: a result flagged `error` is skipped;
otherwise the result's persona gets a recorded visit followed by the
trust update. -/
def memoryWriteStep (turnNumber : Nat) (price quality : ℚ)
    (mem : Nat → MemoryState) (result : SimResult) : Nat → MemoryState :=
  if result.error then mem
  else fun pid =>
    if pid = result.personaId then
      let s := recordVisit (mem pid)
        { turn := turnNumber, decision := result.decision, price := price,
          quality := quality, emotion := result.emotion,
          reasoning := result.reasoning }
      { s with trust_score := updateTrustWithEmotion s.trust_score result.emotion }
    else mem pid

/-- The memory-write pass at the end of `processBatchedSimulation`: for
every non-error result, record a visit and apply the trust update; the
memory is a map from persona id to state. -/
def applyMemoryWrites (memory : Nat → MemoryState) (results : List SimResult)
    (turnNumber : Nat) (price quality : ℚ) : Nat → MemoryState :=
  results.foldl (memoryWriteStep turnNumber price quality) memory

/-! ## Theorems about trust updates -/

/-- C1: for every starting trust score in [0,100] and every finite
sequence of `updateTrustWithEmotion` calls with arbitrary emotion
strings (known or unknown), the trust score after each call remains an
integer in [0,100] (integrality is expressed by the `Int` codomain). -/
theorem trust_score_bounds (t0 : Int) (h0 : 0 ≤ t0) (h1 : t0 ≤ 100)
    (emotions : List String) :
    0 ≤ emotions.foldl updateTrustWithEmotion t0 ∧
      emotions.foldl updateTrustWithEmotion t0 ≤ 100 := by
  induction emotions generalizing t0 with
  | nil => exact ⟨h0, h1⟩
  | cons e es ih =>
      have hstep : 0 ≤ updateTrustWithEmotion t0 e ∧
          updateTrustWithEmotion t0 e ≤ 100 := by
        unfold updateTrustWithEmotion
        constructor
        · exact le_max_left 0 _
        · exact max_le (by norm_num) (min_le_left 100 _)
      simpa using ih _ hstep.1 hstep.2

/-- Witness for `trust_score_bounds` at trust 100 and two concrete
emotion strings (one of them outside the table). -/
theorem trust_score_bounds_witness :
    (0 ≤ (100 : Int) ∧ (100 : Int) ≤ 100) ∧
      (0 ≤ ["betrayed", "confused"].foldl updateTrustWithEmotion 100 ∧
        ["betrayed", "confused"].foldl updateTrustWithEmotion 100 ≤ 100) :=
  ⟨⟨by decide, by decide⟩,
    trust_score_bounds 100 (by decide) (by decide) ["betrayed", "confused"]⟩

/-- C2: the emotion→delta table, the asymmetric application (negative
deltas at full magnitude, positive deltas floor-divided by 3), and the
concrete run 100 →(betrayed) 60 →(loyal) 65 where the loyal event adds
+5 = ⌊15/3⌋, not +15. -/
theorem trust_delta_asymmetry :
    trustDelta "satisfied" = 5 ∧ trustDelta "delighted" = 10 ∧
    trustDelta "loyal" = 15 ∧ trustDelta "neutral" = 0 ∧
    trustDelta "frustrated" = -15 ∧ trustDelta "angry" = -25 ∧
    trustDelta "betrayed" = -40 ∧
    appliedTrustDelta "satisfied" = 1 ∧ appliedTrustDelta "delighted" = 3 ∧
    appliedTrustDelta "loyal" = 5 ∧ appliedTrustDelta "neutral" = 0 ∧
    appliedTrustDelta "frustrated" = -15 ∧
    appliedTrustDelta "angry" = -25 ∧ appliedTrustDelta "betrayed" = -40 ∧
    List.scanl updateTrustWithEmotion 100 ["betrayed", "loyal"] =
      [100, 60, 65] := by
  decide

/-- C5 counterexample: from trust 100, three `betrayed` events leave the
trust score at 0 (the third application clamps −20 up to 0), not at 20
as the claim states. -/
theorem three_betrayed_cx :
    List.foldl updateTrustWithEmotion 100
        ["betrayed", "betrayed", "betrayed"] = 0 ∧
      List.foldl updateTrustWithEmotion 100
        ["betrayed", "betrayed", "betrayed"] ≠ 20 := by
  decide

/-- C5 (amended): from trust 100, three `betrayed` events trace
100 → 60 → 20 → 0; the final score is 0, clamped at the lower bound
rather than going to −20 (the value 20 is reached after the second
event). -/
theorem three_betrayed_clamps_to_zero :
    List.scanl updateTrustWithEmotion 100
      ["betrayed", "betrayed", "betrayed"] = [100, 60, 20, 0] := by
  decide

/-! ## Theorems about momentum and the mood label -/

/-- C8: momentum computes leaving/staying/switching as the stated count
ratios with the stated mood rule; the empty list yields all-zero
momentum; and the concrete 7-Skip/Switch + 3-Buy set yields
leaving = 0.7, staying = 0.3, mood `mass_exit`, whose market-mood label
is "Brand Crisis" under the first-match rule order. -/
theorem momentum_spec :
    (calculateMarketMomentum [] =
      { leaving := 0, staying := 0, switching := 0, mood := none }) ∧
    (∀ ds : List String, ds ≠ [] →
      (calculateMarketMomentum ds).leaving =
          (((ds.filter (fun r => r = "Skip")).length : ℚ) +
            (ds.filter (fun r => r = "Switch")).length) / ds.length ∧
      (calculateMarketMomentum ds).staying =
          ((ds.filter (fun r => r = "Buy")).length : ℚ) / ds.length ∧
      (calculateMarketMomentum ds).switching =
          ((ds.filter (fun r => r = "Switch")).length : ℚ) / ds.length ∧
      (calculateMarketMomentum ds).mood = some
          (if (((ds.filter (fun r => r = "Skip")).length : ℚ) +
                (ds.filter (fun r => r = "Switch")).length) >
              (ds.length : ℚ) * (1/2)
           then "mass_exit"
           else if ((ds.filter (fun r => r = "Buy")).length : ℚ) >
              (ds.length : ℚ) * (3/5)
           then "mass_adoption"
           else "neutral")) ∧
    ((calculateMarketMomentum exodusDecisions).leaving = 7/10 ∧
      (calculateMarketMomentum exodusDecisions).staying = 3/10 ∧
      (calculateMarketMomentum exodusDecisions).mood = some "mass_exit" ∧
      getMarketMoodLabel (calculateMarketMomentum exodusDecisions) =
        "Brand Crisis") := by
  refine ⟨by decide, ?_, ?_⟩
  · intro ds hds
    have htot : ds.length ≠ 0 := by
      simpa [List.length_eq_zero] using hds
    simp only [calculateMarketMomentum, htot, if_neg htot]
    exact ⟨rfl, rfl, rfl, rfl⟩
  · have h : calculateMarketMomentum exodusDecisions =
        { leaving := 7/10, staying := 3/10, switching := 3/10,
          mood := some "mass_exit" } := by
      simp +decide [calculateMarketMomentum, exodusDecisions]
      norm_num
    rw [h]
    refine ⟨rfl, rfl, rfl, ?_⟩
    simp only [getMarketMoodLabel]
    norm_num

/-- Witness for `momentum_spec` on a concrete non-empty decision list. -/
theorem momentum_spec_witness :
    (["Buy"] : List String) ≠ [] ∧
      (calculateMarketMomentum ["Buy"]).leaving =
        ((((["Buy"] : List String).filter (fun r => r = "Skip")).length : ℚ) +
          ((["Buy"] : List String).filter (fun r => r = "Switch")).length) /
          (["Buy"] : List String).length :=
  ⟨by decide, (momentum_spec.2.1 ["Buy"] (by decide)).1⟩

/-- C10: the market-mood label is never "Skeptical": any momentum with
leaving ≥ 0.55 already satisfies leaving ≥ 0.5, so it is labelled
"Brand Crisis" or "Mass Exodus" by an earlier rule. -/
theorem skeptical_unreachable :
    (∀ m : Momentum, getMarketMoodLabel m ≠ "Skeptical") ∧
    (∀ m : Momentum, m.leaving ≥ 11/20 →
      getMarketMoodLabel m = "Brand Crisis" ∨
        getMarketMoodLabel m = "Mass Exodus") := by
  constructor
  · intro m
    unfold getMarketMoodLabel
    split_ifs with h1 h2 h3 h4 h5 h6 h7 <;> try decide
    exact absurd (le_trans (by norm_num) h7) h2
  · intro m hm
    unfold getMarketMoodLabel
    split_ifs with h1 h2 <;>
      first
        | exact Or.inl rfl
        | exact Or.inr rfl
        | exact absurd (le_trans (by norm_num) hm) h2

/-- Witness for `skeptical_unreachable` at a concrete momentum with
leaving = 0.55. -/
theorem skeptical_unreachable_witness :
    ((11/20 : ℚ) ≥ 11/20) ∧
      (getMarketMoodLabel
          { leaving := 11/20, staying := 0, switching := 0, mood := none } =
            "Brand Crisis" ∨
        getMarketMoodLabel
          { leaving := 11/20, staying := 0, switching := 0, mood := none } =
            "Mass Exodus") :=
  ⟨le_refl _, skeptical_unreachable.2 _ (le_refl _)⟩

/-! ## Theorems about the experience state machine -/

lemma neg_not_pos {e : String} (h : isNegativeEmotion e = true) :
    isPositiveEmotion e = false := by
  simp only [isNegativeEmotion, Bool.or_eq_true, decide_eq_true_eq] at h
  rcases h with (h | h) | h <;> subst h <;> decide

lemma pos_not_neg {e : String} (h : isPositiveEmotion e = true) :
    isNegativeEmotion e = false := by
  simp only [isPositiveEmotion, Bool.or_eq_true, decide_eq_true_eq] at h
  rcases h with (h | h) | h <;> subst h <;> decide

lemma recordVisit_flags (s : MemoryState) (v : Visit) :
    (recordVisit s v).flags =
      (runExperienceMachine s.experienceTracking s.flags
        (updateLifetimeStats s.lifetimeStats v) v).2.1 := rfl

lemma recordVisit_et (s : MemoryState) (v : Visit) :
    (recordVisit s v).experienceTracking =
      updatePeakExperience (runExperienceMachine s.experienceTracking s.flags
        (updateLifetimeStats s.lifetimeStats v) v).1 v := rfl

lemma updatePeakExperience_eta (et : ExperienceTracking) (v : Visit) :
    ∃ pk, updatePeakExperience et v = { et with peakExperience := pk } := by
  unfold updatePeakExperience
  split_ifs with h
  · rcases hp : et.peakExperience with _ | peak
    · exact ⟨_, rfl⟩
    · simp only [hp]
      split_ifs with hq
      · exact ⟨_, rfl⟩
      · exact ⟨et.peakExperience, rfl⟩
  · exact ⟨et.peakExperience, rfl⟩

lemma updatePeakExperience_cf (et : ExperienceTracking) (v : Visit) :
    (updatePeakExperience et v).consecutiveFrustrations =
      et.consecutiveFrustrations := by
  obtain ⟨pk, h⟩ := updatePeakExperience_eta et v
  rw [h]

lemma machine_neg (et : ExperienceTracking) (fl : Flags) (ls : LifetimeStats)
    (v : Visit) (h : isNegativeEmotion v.emotion = true) :
    runExperienceMachine et fl ls v =
      ({ et with consecutiveFrustrations := et.consecutiveFrustrations + 1,
                 consecutiveBuys := 0 },
       (let fl1 := if et.consecutiveFrustrations + 1 ≥ 3 then
            { fl with isPermanentlyGone := true } else fl
        if et.consecutiveFrustrations + 1 = 2 ∧ fl1.isOnLastChance = false then
          { fl1 with isOnLastChance := true,
                     lastChanceGivenTurn := some v.turn }
        else fl1),
       { ls with timesDisappointed := ls.timesDisappointed + 1 }) := by
  simp [runExperienceMachine, h]

lemma machine_pos (et : ExperienceTracking) (fl : Flags) (ls : LifetimeStats)
    (v : Visit) (h : isPositiveEmotion v.emotion = true) :
    runExperienceMachine et fl ls v =
      ((let et1 : ExperienceTracking := { et with consecutiveFrustrations := 0 }
        if v.decision = "Buy" then
          let etb := { et1 with consecutiveBuys := et1.consecutiveBuys + 1 }
          if etb.consecutiveBuys ≥ 5 then { etb with hasRoutine := true }
          else etb
        else et1),
       (if fl.isOnLastChance then { fl with isOnLastChance := false } else fl),
       { ls with timesDelighted := ls.timesDelighted + 1 }) := by
  simp [runExperienceMachine, h, pos_not_neg h]

lemma recordVisit_neg (s : MemoryState) (v : Visit)
    (h : isNegativeEmotion v.emotion = true) :
    (recordVisit s v).experienceTracking.consecutiveFrustrations
        = s.experienceTracking.consecutiveFrustrations + 1 ∧
    (recordVisit s v).flags =
      (let fl1 := if s.experienceTracking.consecutiveFrustrations + 1 ≥ 3 then
            { s.flags with isPermanentlyGone := true } else s.flags
       if s.experienceTracking.consecutiveFrustrations + 1 = 2 ∧
           fl1.isOnLastChance = false then
         { fl1 with isOnLastChance := true,
                    lastChanceGivenTurn := some v.turn }
       else fl1) := by
  constructor
  · rw [recordVisit_et, machine_neg _ _ _ _ h, updatePeakExperience_cf]
  · rw [recordVisit_flags, machine_neg _ _ _ _ h]

lemma recordVisit_pos (s : MemoryState) (v : Visit)
    (h : isPositiveEmotion v.emotion = true) :
    (recordVisit s v).flags.isOnLastChance = false ∧
    (recordVisit s v).experienceTracking.consecutiveFrustrations = 0 := by
  constructor
  · rw [recordVisit_flags, machine_pos _ _ _ _ h]
    by_cases hc : s.flags.isOnLastChance <;> simp [hc]
  · rw [recordVisit_et, machine_pos _ _ _ _ h, updatePeakExperience_cf]
    by_cases hb : v.decision = "Buy"
    · simp only [hb, if_true, reduceIte]
      split_ifs <;> rfl
    · simp only [hb, if_false, reduceIte]

lemma recordVisit_gone_mono (s : MemoryState) (v : Visit)
    (h : s.flags.isPermanentlyGone = true) :
    (recordVisit s v).flags.isPermanentlyGone = true := by
  rw [recordVisit_flags]
  unfold runExperienceMachine
  split_ifs <;> simp_all <;> (try (split_ifs <;> simp_all))

lemma foldl_gone_mono (l : List Visit) :
    ∀ s : MemoryState, s.flags.isPermanentlyGone = true →
      (l.foldl recordVisit s).flags.isPermanentlyGone = true := by
  induction l with
  | nil => intro s h; exact h
  | cons v vs ih => intro s h; exact ih _ (recordVisit_gone_mono s v h)

/-- C3: from a fresh memory state, the 2nd consecutive negative visit
sets `isOnLastChance` (recording the turn) while `isPermanentlyGone` is
still false; a positive visit always clears `isOnLastChance` and resets
`consecutiveFrustrations`; 3 consecutive negative visits from fresh set
`isPermanentlyGone`; and `isPermanentlyGone` is a one-way latch under
arbitrary further `recordVisit` calls. -/
theorem experience_state_machine :
    (∀ v1 v2 : Visit, isNegativeEmotion v1.emotion = true →
      isNegativeEmotion v2.emotion = true →
      ((recordVisit (recordVisit DEFAULT_ENHANCED_STATE v1) v2).flags.isOnLastChance
          = true ∧
       (recordVisit (recordVisit DEFAULT_ENHANCED_STATE v1) v2).flags.lastChanceGivenTurn
          = some v2.turn ∧
       (recordVisit (recordVisit DEFAULT_ENHANCED_STATE v1) v2).flags.isPermanentlyGone
          = false)) ∧
    (∀ (s : MemoryState) (v : Visit), isPositiveEmotion v.emotion = true →
      ((recordVisit s v).flags.isOnLastChance = false ∧
       (recordVisit s v).experienceTracking.consecutiveFrustrations = 0)) ∧
    (∀ v1 v2 v3 : Visit, isNegativeEmotion v1.emotion = true →
      isNegativeEmotion v2.emotion = true → isNegativeEmotion v3.emotion = true →
      (recordVisit (recordVisit (recordVisit DEFAULT_ENHANCED_STATE v1) v2)
          v3).flags.isPermanentlyGone = true) ∧
    (∀ s : MemoryState, s.flags.isPermanentlyGone = true →
      ∀ l : List Visit, (l.foldl recordVisit s).flags.isPermanentlyGone = true) := by
  have hdef_cf : DEFAULT_ENHANCED_STATE.experienceTracking.consecutiveFrustrations = 0 := rfl
  have hdef_fl : DEFAULT_ENHANCED_STATE.flags =
      { isPermanentlyGone := false, isOnLastChance := false,
        lastChanceGivenTurn := none } := rfl
  refine ⟨?_, ?_, ?_, ?_⟩
  · intro v1 v2 h1 h2
    obtain ⟨hcf1, hfl1⟩ := recordVisit_neg DEFAULT_ENHANCED_STATE v1 h1
    rw [hdef_cf] at hcf1
    rw [hdef_cf, hdef_fl] at hfl1
    norm_num at hfl1
    obtain ⟨hcf2, hfl2⟩ := recordVisit_neg (recordVisit DEFAULT_ENHANCED_STATE v1) v2 h2
    rw [hcf1] at hcf2
    rw [hcf1, hfl1] at hfl2
    norm_num at hfl2
    rw [hfl2]
    exact ⟨rfl, rfl, rfl⟩
  · exact fun s v h => recordVisit_pos s v h
  · intro v1 v2 v3 h1 h2 h3
    obtain ⟨hcf1, _⟩ := recordVisit_neg DEFAULT_ENHANCED_STATE v1 h1
    rw [hdef_cf] at hcf1
    obtain ⟨hcf2, _⟩ := recordVisit_neg (recordVisit DEFAULT_ENHANCED_STATE v1) v2 h2
    rw [hcf1] at hcf2
    obtain ⟨_, hfl3⟩ :=
      recordVisit_neg (recordVisit (recordVisit DEFAULT_ENHANCED_STATE v1) v2) v3 h3
    rw [hcf2] at hfl3
    norm_num at hfl3
    rw [hfl3]
  · exact fun s h l => foldl_gone_mono l s h

/-- Witness for `experience_state_machine` on concrete visits:
two frustrated visits trigger last-chance, a third sets the permanent
latch, a satisfied visit clears last-chance, and the latch survives a
later positive visit. -/
theorem experience_state_machine_witness :
    (isNegativeEmotion "frustrated" = true ∧ isNegativeEmotion "angry" = true ∧
     isNegativeEmotion "betrayed" = true ∧ isPositiveEmotion "satisfied" = true) ∧
    ((recordVisit (recordVisit DEFAULT_ENHANCED_STATE
        ⟨1, "Skip", 5, 5, "frustrated", "bad coffee"⟩)
        ⟨2, "Skip", 5, 4, "angry", "worse coffee"⟩).flags.isOnLastChance = true) ∧
    ((recordVisit { DEFAULT_ENHANCED_STATE with
        flags := { isPermanentlyGone := false, isOnLastChance := true,
                   lastChanceGivenTurn := some 2 } }
        ⟨3, "Buy", 5, 9, "satisfied", "redeemed"⟩).flags.isOnLastChance = false) ∧
    ((recordVisit (recordVisit (recordVisit DEFAULT_ENHANCED_STATE
        ⟨1, "Skip", 5, 5, "frustrated", "bad"⟩)
        ⟨2, "Skip", 5, 4, "angry", "worse"⟩)
        ⟨3, "Switch", 5, 3, "betrayed", "done"⟩).flags.isPermanentlyGone = true) ∧
    (([⟨4, "Buy", 5, 9, "delighted", "too late"⟩] : List Visit).foldl recordVisit
        { DEFAULT_ENHANCED_STATE with
          flags := { isPermanentlyGone := true, isOnLastChance := false,
                     lastChanceGivenTurn := none } }).flags.isPermanentlyGone = true := by
  have h := experience_state_machine
  refine ⟨⟨rfl, rfl, rfl, rfl⟩, ?_, ?_, ?_, ?_⟩
  · exact (h.1 ⟨1, "Skip", 5, 5, "frustrated", "bad coffee"⟩
      ⟨2, "Skip", 5, 4, "angry", "worse coffee"⟩ rfl rfl).1
  · exact (h.2.1 _ ⟨3, "Buy", 5, 9, "satisfied", "redeemed"⟩ rfl).1
  · exact h.2.2.1 ⟨1, "Skip", 5, 5, "frustrated", "bad"⟩
      ⟨2, "Skip", 5, 4, "angry", "worse"⟩
      ⟨3, "Switch", 5, 3, "betrayed", "done"⟩ rfl rfl rfl
  · exact h.2.2.2 _ rfl [⟨4, "Buy", 5, 9, "delighted", "too late"⟩]

/-! ## Theorems about price anchoring -/

lemma recordVisit_pa (s : MemoryState) (v : Visit) :
    (recordVisit s v).priceAnchoring =
      updatePriceAnchoring s.priceAnchoring v := rfl

lemma updatePA_initial (pa : PriceAnchoring) (v : Visit) :
    (updatePriceAnchoring pa v).initialPrice =
      (match pa.initialPrice with
       | none => some v.price
       | some p => some p) := by
  cases h : pa.initialPrice <;> simp [updatePriceAnchoring, h]

lemma updatePA_lowest (pa : PriceAnchoring) (v : Visit) :
    (updatePriceAnchoring pa v).lowestPriceSeen =
      (match pa.lowestPriceSeen with
       | none => some v.price
       | some m => some (min m v.price)) := by
  cases h : pa.lowestPriceSeen with
  | none => simp [updatePriceAnchoring, h]
  | some m =>
      simp only [updatePriceAnchoring, h]
      split_ifs with hlt
      · rw [min_eq_right (le_of_lt hlt)]
      · rw [min_eq_left (not_lt.mp hlt)]

lemma updatePA_highest (pa : PriceAnchoring) (v : Visit) :
    (updatePriceAnchoring pa v).highestPriceSeen =
      (match pa.highestPriceSeen with
       | none => some v.price
       | some m => some (max m v.price)) := by
  cases h : pa.highestPriceSeen with
  | none => simp [updatePriceAnchoring, h]
  | some m =>
      simp only [updatePriceAnchoring, h]
      split_ifs with hgt
      · rw [max_eq_right (le_of_lt hgt)]
      · rw [max_eq_left (not_lt.mp hgt)]

lemma foldl_initial_sticky (l : List Visit) :
    ∀ (s : MemoryState) (p : ℚ), s.priceAnchoring.initialPrice = some p →
      (l.foldl recordVisit s).priceAnchoring.initialPrice = some p := by
  induction l with
  | nil => intro s p h; exact h
  | cons v vs ih =>
      intro s p h
      apply ih
      rw [recordVisit_pa, updatePA_initial, h]

lemma foldl_lowest (l : List Visit) :
    ∀ s : MemoryState,
      (l.foldl recordVisit s).priceAnchoring.lowestPriceSeen =
        runningMin s.priceAnchoring.lowestPriceSeen (l.map Visit.price) := by
  induction l with
  | nil => intro s; rfl
  | cons v vs ih =>
      intro s
      rw [List.foldl_cons, ih, List.map_cons]
      cases h : s.priceAnchoring.lowestPriceSeen with
      | none => rw [recordVisit_pa, updatePA_lowest, h, runningMin]
      | some m => rw [recordVisit_pa, updatePA_lowest, h, runningMin]

lemma foldl_highest (l : List Visit) :
    ∀ s : MemoryState,
      (l.foldl recordVisit s).priceAnchoring.highestPriceSeen =
        runningMax s.priceAnchoring.highestPriceSeen (l.map Visit.price) := by
  induction l with
  | nil => intro s; rfl
  | cons v vs ih =>
      intro s
      rw [List.foldl_cons, ih, List.map_cons]
      cases h : s.priceAnchoring.highestPriceSeen with
      | none => rw [recordVisit_pa, updatePA_highest, h, runningMax]
      | some m => rw [recordVisit_pa, updatePA_highest, h, runningMax]

/-- C9: across every sequence of `recordVisit` calls, `initialPrice`
never changes once set (and the first recorded visit sets it);
`lastPricePaid` changes only on Buy visits (and a Buy visit sets it to
that visit's price); and `lowestPriceSeen`/`highestPriceSeen` equal the
running minimum/maximum over all observed prices. -/
theorem price_anchoring_invariants :
    (∀ (s : MemoryState) (p : ℚ) (l : List Visit),
      s.priceAnchoring.initialPrice = some p →
      (l.foldl recordVisit s).priceAnchoring.initialPrice = some p) ∧
    (∀ (v : Visit) (vs : List Visit),
      ((v :: vs).foldl recordVisit
          DEFAULT_ENHANCED_STATE).priceAnchoring.initialPrice = some v.price) ∧
    (∀ (s : MemoryState) (v : Visit), ¬ v.decision = "Buy" →
      (recordVisit s v).priceAnchoring.lastPricePaid =
        s.priceAnchoring.lastPricePaid) ∧
    (∀ (s : MemoryState) (v : Visit), v.decision = "Buy" →
      (recordVisit s v).priceAnchoring.lastPricePaid = some v.price) ∧
    (∀ (s : MemoryState) (l : List Visit),
      (l.foldl recordVisit s).priceAnchoring.lowestPriceSeen =
          runningMin s.priceAnchoring.lowestPriceSeen (l.map Visit.price) ∧
      (l.foldl recordVisit s).priceAnchoring.highestPriceSeen =
          runningMax s.priceAnchoring.highestPriceSeen (l.map Visit.price)) := by
  refine ⟨?_, ?_, ?_, ?_, ?_⟩
  · intro s p l h
    exact foldl_initial_sticky l s p h
  · intro v vs
    rw [List.foldl_cons]
    apply foldl_initial_sticky
    rw [recordVisit_pa, updatePA_initial]
    have h : DEFAULT_ENHANCED_STATE.priceAnchoring.initialPrice = none := rfl
    rw [h]
  · intro s v h
    rw [recordVisit_pa]
    simp [updatePriceAnchoring, h]
  · intro s v h
    rw [recordVisit_pa]
    simp [updatePriceAnchoring, h]
  · intro s l
    exact ⟨foldl_lowest l s, foldl_highest l s⟩

/-- Witness for `price_anchoring_invariants`: an anchor of $5 survives a
later visit at another price, a Skip visit leaves `lastPricePaid`
untouched, and a Buy visit overwrites it. -/
theorem price_anchoring_invariants_witness :
    anchoredAtFive.priceAnchoring.initialPrice = some 5 ∧
    (([⟨2, "Skip", 7, 5, "neutral", "pricey"⟩] : List Visit).foldl recordVisit
      anchoredAtFive).priceAnchoring.initialPrice = some 5 ∧
    ¬ ("Skip" : String) = "Buy" ∧
    (recordVisit DEFAULT_ENHANCED_STATE
        ⟨1, "Skip", 7, 5, "neutral", "pricey"⟩).priceAnchoring.lastPricePaid =
      DEFAULT_ENHANCED_STATE.priceAnchoring.lastPricePaid ∧
    (recordVisit DEFAULT_ENHANCED_STATE
        ⟨1, "Buy", 7, 5, "neutral", "fine"⟩).priceAnchoring.lastPricePaid =
      some 7 := by
  have h := price_anchoring_invariants
  refine ⟨rfl, ?_, by decide, ?_, ?_⟩
  · exact h.1 _ 5 _ rfl
  · exact h.2.2.1 DEFAULT_ENHANCED_STATE ⟨1, "Skip", 7, 5, "neutral", "pricey"⟩
      (by decide)
  · exact h.2.2.2.1 DEFAULT_ENHANCED_STATE ⟨1, "Buy", 7, 5, "neutral", "fine"⟩ rfl

/-! ## Theorems about price perception -/

/-- C4: with an initial price recorded, the perception follows the
loss-aversion rule chain of the claim (delta vs. initial weighted 2×
when positive, 1× otherwise, then the 5%/20%/0/−10% thresholds in
order); with no initial price the perception is "unknown"; and at
initialPrice = $10 the prices $12, $9.50, $8 classify as "outrageous",
"fair", "cheap" respectively. -/
theorem price_perception_loss_aversion :
    (∀ (pa : PriceAnchoring) (c : ℚ), pa.initialPrice = none →
      (calculatePricePerception pa c).perception = "unknown") ∧
    (∀ (pa : PriceAnchoring) (ip c : ℚ), pa.initialPrice = some ip →
      (calculatePricePerception pa c).perception =
        (let wd := (c - ip) * (if c - ip > 0 then 2 else 1)
         if |wd| < ip * (5/100) then "fair"
         else if wd > ip * (20/100) then "outrageous"
         else if wd > 0 then "expensive"
         else if wd < -(ip * (10/100)) then "cheap"
         else "fair")) ∧
    (calculatePricePerception anchorAtTen 12).perception = "outrageous" ∧
    (calculatePricePerception anchorAtTen (19/2)).perception = "fair" ∧
    (calculatePricePerception anchorAtTen 8).perception = "cheap" := by
  have hgen : ∀ (pa : PriceAnchoring) (ip c : ℚ), pa.initialPrice = some ip →
      (calculatePricePerception pa c).perception =
        (let wd := (c - ip) * (if c - ip > 0 then 2 else 1)
         if |wd| < ip * (5/100) then "fair"
         else if wd > ip * (20/100) then "outrageous"
         else if wd > 0 then "expensive"
         else if wd < -(ip * (10/100)) then "cheap"
         else "fair") := by
    intro pa ip c h
    simp only [calculatePricePerception, h, neg_mul]
  have hten : anchorAtTen.initialPrice = some 10 := rfl
  refine ⟨?_, hgen, ?_, ?_, ?_⟩
  · intro pa c h
    simp only [calculatePricePerception, h]
  · rw [hgen anchorAtTen 10 12 hten]
    norm_num
  · rw [hgen anchorAtTen 10 (19/2) hten]
    norm_num
  · rw [hgen anchorAtTen 10 8 hten]
    norm_num

/-- Witness for `price_perception_loss_aversion`: the no-anchor branch
at a concrete anchor state and the rule chain at initialPrice $10,
current price $12. -/
theorem price_perception_loss_aversion_witness :
    (({ initialPrice := none, lastPricePaid := none, lowestPriceSeen := none,
        highestPriceSeen := none } : PriceAnchoring).initialPrice = none ∧
      (calculatePricePerception
        { initialPrice := none, lastPricePaid := none, lowestPriceSeen := none,
          highestPriceSeen := none } 3).perception = "unknown") ∧
    (anchorAtTen.initialPrice = some 10 ∧
      (calculatePricePerception anchorAtTen 12).perception =
        (let wd := ((12 : ℚ) - 10) * (if (12 : ℚ) - 10 > 0 then 2 else 1)
         if |wd| < 10 * (5/100) then "fair"
         else if wd > 10 * (20/100) then "outrageous"
         else if wd > 0 then "expensive"
         else if wd < -(10 * (10/100)) then "cheap"
         else "fair")) := by
  have h := price_perception_loss_aversion
  exact ⟨⟨rfl, h.1 _ 3 rfl⟩, ⟨rfl, h.2.1 anchorAtTen 10 12 rfl⟩⟩

/-! ## Theorems about batch ordering and oracle-failure isolation -/

lemma processBatchesAux_append (oracle : Persona → ℚ → SimResult)
    (baseSens : Persona → ℚ) :
    ∀ (bs cs : List (List Persona)) (acc : List SimResult) (mom : Option Momentum),
      processBatchesAux oracle baseSens (bs ++ cs) acc mom =
        processBatchesAux oracle baseSens cs
          (processBatchesAux oracle baseSens bs acc mom)
          (momentumAfter oracle baseSens bs acc mom) := by
  intro bs
  induction bs with
  | nil => intro cs acc mom; rfl
  | cons batch rest ih =>
      intro cs acc mom
      simp only [List.cons_append, processBatchesAux, momentumAfter,
        List.append_eq]
      rw [ih]
      cases rest with
      | nil => simp [momentumAfter, processBatchesAux]
      | cons b2 r2 => simp [momentumAfter, processBatchesAux]

lemma processBatchesAux_acc (oracle : Persona → ℚ → SimResult)
    (baseSens : Persona → ℚ) :
    ∀ (bs : List (List Persona)) (acc : List SimResult) (mom : Option Momentum),
      ∃ t, processBatchesAux oracle baseSens bs acc mom = acc ++ t := by
  intro bs
  induction bs with
  | nil => intro acc mom; exact ⟨[], by simp [processBatchesAux]⟩
  | cons batch rest ih =>
      intro acc mom
      simp only [processBatchesAux]
      obtain ⟨t, ht⟩ := ih (acc ++ batch.map (fun persona =>
          oracle persona (adjustedSensitivity persona (baseSens persona) mom)))
        (some (calculateMarketMomentum ((acc ++ batch.map (fun persona =>
          oracle persona (adjustedSensitivity persona (baseSens persona) mom))).map
            SimResult.decision)))
      refine ⟨batch.map (fun persona =>
          oracle persona (adjustedSensitivity persona (baseSens persona) mom)) ++ t, ?_⟩
      rw [ht, List.append_assoc]

lemma processBatchesAux_length (oracle : Persona → ℚ → SimResult)
    (baseSens : Persona → ℚ) :
    ∀ (bs : List (List Persona)) (acc : List SimResult) (mom : Option Momentum),
      (processBatchesAux oracle baseSens bs acc mom).length =
        acc.length + (bs.map List.length).sum := by
  intro bs
  induction bs with
  | nil => intro acc mom; simp [processBatchesAux]
  | cons batch rest ih =>
      intro acc mom
      simp only [processBatchesAux]
      rw [ih]
      simp [List.length_append, List.length_map]
      omega

/-- C6: in `processBatchedSimulation`, the sensitivity handed to the
oracle for every persona of the last batch is adjusted using only the
momentum computed from the results of the preceding batches (no
momentum at all for the first batch), and the results of a batch run
are a stable prefix of any longer run — so a persona's adjusted
sensitivity never depends on decisions of its own or later batches. -/
theorem batch_momentum_ordering :
    (∀ (oracle : Persona → ℚ → SimResult) (baseSens : Persona → ℚ)
       (bs : List (List Persona)) (b : List Persona),
      processBatchedSimulation oracle baseSens (bs ++ [b]) =
        processBatchedSimulation oracle baseSens bs ++
          b.map (fun persona =>
            oracle persona (adjustedSensitivity persona (baseSens persona)
              (match bs with
               | [] => none
               | _ :: _ =>
                   some (calculateMarketMomentum
                     ((processBatchedSimulation oracle baseSens bs).map
                       SimResult.decision)))))) ∧
    (∀ (oracle : Persona → ℚ → SimResult) (baseSens : Persona → ℚ)
       (bs rest : List (List Persona)),
      (processBatchedSimulation oracle baseSens (bs ++ rest)).take
          (processBatchedSimulation oracle baseSens bs).length =
        processBatchedSimulation oracle baseSens bs) := by
  constructor
  · intro oracle baseSens bs b
    have hM : momentumAfter oracle baseSens bs [] none =
        (match bs with
         | [] => none
         | _ :: _ =>
             some (calculateMarketMomentum
               ((processBatchedSimulation oracle baseSens bs).map
                 SimResult.decision))) := by
      cases bs with
      | nil => rfl
      | cons b1 r1 => rfl
    unfold processBatchedSimulation
    rw [processBatchesAux_append oracle baseSens bs [b] [] none, hM]
    simp only [processBatchesAux]
    rfl
  · intro oracle baseSens bs rest
    unfold processBatchedSimulation
    rw [processBatchesAux_append oracle baseSens bs rest [] none]
    obtain ⟨t, ht⟩ := processBatchesAux_acc oracle baseSens rest
      (processBatchesAux oracle baseSens bs [] none)
      (momentumAfter oracle baseSens bs [] none)
    rw [ht, List.take_left]

lemma memoryWriteStep_other (turnNumber : Nat) (price quality : ℚ)
    (mem : Nat → MemoryState) (r : SimResult) (pid : Nat)
    (h : r.personaId = pid → r.error = true) :
    memoryWriteStep turnNumber price quality mem r pid = mem pid := by
  unfold memoryWriteStep
  by_cases he : r.error = true
  · simp [he]
  · have hne : ¬ pid = r.personaId := fun hq => he (h hq.symm)
    simp [he, hne]

lemma applyMemoryWrites_skip (turnNumber : Nat) (price quality : ℚ) (pid : Nat) :
    ∀ (results : List SimResult) (memory : Nat → MemoryState),
      (∀ r ∈ results, r.personaId = pid → r.error = true) →
      applyMemoryWrites memory results turnNumber price quality pid = memory pid := by
  intro results
  induction results with
  | nil => intro memory h; rfl
  | cons r rs ih =>
      intro memory h
      have h1 : applyMemoryWrites memory (r :: rs) turnNumber price quality =
          applyMemoryWrites (memoryWriteStep turnNumber price quality memory r)
            rs turnNumber price quality := rfl
      rw [h1, ih _ (fun x hx => h x (List.mem_cons_of_mem r hx))]
      exact memoryWriteStep_other turnNumber price quality memory r pid
        (h r (List.mem_cons_self r rs))

/-- C7 counterexample: an oracle response whose decision "Dance" is
outside {Buy, Skip, Switch} is coerced to Skip but is NOT flagged
`error := true` (contrary to the claim), and its memory IS written (the
persona's `totalVisits` goes from 0 to 1). -/
theorem oracle_invalid_decision_cx :
    (¬ (("Dance" : String) = "Buy" ∨ ("Dance" : String) = "Skip" ∨
        ("Dance" : String) = "Switch")) ∧
    (simulatePersona ⟨1, 1/2⟩
        (Except.ok ⟨"Dance", "feeling chaotic", "delighted", "fair"⟩)).decision
      = "Skip" ∧
    (simulatePersona ⟨1, 1/2⟩
        (Except.ok ⟨"Dance", "feeling chaotic", "delighted", "fair"⟩)).error
      = false ∧
    (applyMemoryWrites (fun _ => DEFAULT_ENHANCED_STATE)
        [simulatePersona ⟨1, 1/2⟩
          (Except.ok ⟨"Dance", "feeling chaotic", "delighted", "fair"⟩)]
        1 5 5 1).lifetimeStats.totalVisits = 1 ∧
    DEFAULT_ENHANCED_STATE.lifetimeStats.totalVisits = 0 :=
  ⟨by decide, rfl, rfl, rfl, rfl⟩

/-- C7 (amended): a thrown oracle call yields a Skip result with an
explanatory reasoning string and `error := true`; an in-protocol
response with a decision outside {Buy, Skip, Switch} is coerced to Skip
but not error-flagged; every turn returns one result per persona no
matter how many oracle calls fail; and personas all of whose results
are error-flagged get no memory write (no visit, no trust update). -/
theorem oracle_failure_isolation :
    (∀ (p : Persona) (msg : String),
      simulatePersona p (Except.error msg) =
        { personaId := p.id, decision := "Skip", reasoning := "Error: " ++ msg,
          emotion := "neutral", error := true }) ∧
    (∀ (p : Persona) (d : OracleDecision),
      ¬ (d.decision = "Buy" ∨ d.decision = "Skip" ∨ d.decision = "Switch") →
      (simulatePersona p (Except.ok d)).decision = "Skip" ∧
        (simulatePersona p (Except.ok d)).error = false) ∧
    (∀ (oracle : Persona → ℚ → SimResult) (baseSens : Persona → ℚ)
       (bs : List (List Persona)),
      (processBatchedSimulation oracle baseSens bs).length = bs.flatten.length) ∧
    (∀ (memory : Nat → MemoryState) (results : List SimResult)
       (turnNumber : Nat) (price quality : ℚ) (pid : Nat),
      (∀ r ∈ results, r.personaId = pid → r.error = true) →
      applyMemoryWrites memory results turnNumber price quality pid = memory pid) := by
  refine ⟨fun p msg => rfl, ?_, ?_, ?_⟩
  · intro p d h
    exact ⟨by simp [simulatePersona, h], rfl⟩
  · intro oracle baseSens bs
    rw [List.length_flatten]
    unfold processBatchedSimulation
    rw [processBatchesAux_length]
    simp
  · intro memory results turnNumber price quality pid h
    exact applyMemoryWrites_skip turnNumber price quality pid results memory h

/-- Witness for `oracle_failure_isolation`: an out-of-protocol decision
string gets coerced, and an error-flagged result leaves the persona's
memory untouched. -/
theorem oracle_failure_isolation_witness :
    (¬ (("Mull" : String) = "Buy" ∨ ("Mull" : String) = "Skip" ∨
        ("Mull" : String) = "Switch")) ∧
    (simulatePersona ⟨2, 1⟩
        (Except.ok ⟨"Mull", "thinking", "neutral", "fair"⟩)).decision = "Skip" ∧
    (∀ r ∈ ([⟨3, "Skip", "Error: timeout", "neutral", true⟩] : List SimResult),
        r.personaId = 3 → r.error = true) ∧
    applyMemoryWrites (fun _ => DEFAULT_ENHANCED_STATE)
        [⟨3, "Skip", "Error: timeout", "neutral", true⟩] 4 6 7 3 =
      (fun _ => DEFAULT_ENHANCED_STATE) 3 := by
  have h := oracle_failure_isolation
  have hd : ¬ (("Mull" : String) = "Buy" ∨ ("Mull" : String) = "Skip" ∨
      ("Mull" : String) = "Switch") := by decide
  have hm : ∀ r ∈ ([⟨3, "Skip", "Error: timeout", "neutral", true⟩] : List SimResult),
      r.personaId = 3 → r.error = true := by
    intro r hr
    simp only [List.mem_singleton] at hr
    subst hr
    exact fun _ => rfl
  exact ⟨hd, (h.2.1 ⟨2, 1⟩ ⟨"Mull", "thinking", "neutral", "fair"⟩ hd).1, hm,
    h.2.2.2 (fun _ => DEFAULT_ENHANCED_STATE)
      [⟨3, "Skip", "Error: timeout", "neutral", true⟩] 4 6 7 3 hm⟩

end NwhacksAgent
